import Mathlib

/-!
Shallow embedding of the two Grafana Cloud Ansible reconcilers
(`plugins/modules/alert_contact_point.py` and `plugins/modules/cloud_api_key.py`).

Each reconciler is modelled as a function from its module parameters and a
response oracle (the sequence of HTTP responses the server would give, indexed
by the order in which requests are issued) to the pair of
(the list of HTTP requests issued, the returned outcome triple).

Python exceptions that the source can raise while decoding response bodies
(`result.json()['message']` on a body without a `message` field, iterating a
non-iterable listing body, subscripting a non-dict element) are modelled with
`Except PyExn`; an `Except.error` result corresponds to an uncaught Python
exception, in which place no outcome triple is returned.
-/

/-- Parsed JSON values, as returned by `result.json()` in the source. -/
inductive Json where
  | null : Json
  | bool : Bool → Json
  | num : Int → Json
  | str : String → Json
  | arr : List Json → Json
  | obj : List (String × Json) → Json

/-- Python exceptions the embedded code can raise. -/
inductive PyExn where
  | keyError : PyExn
  | typeError : PyExn
  | nameError : PyExn
deriving Repr, DecidableEq

/-- Python `value['key']` for a string key: succeeds only on a dict that has
the key; a dict without the key raises `KeyError`, any non-dict raises
`TypeError`. -/
def pySubscript : Json → String → Except PyExn Json
  | Json.obj kvs, k =>
    match kvs.lookup k with
    | some v => Except.ok v
    | none => Except.error PyExn.keyError
  | _, _ => Except.error PyExn.typeError

/-- Python `for x in value`: a list yields its elements, a dict yields its
keys, a string yields its characters (as one-character strings); other JSON
values are not iterable and raise `TypeError`. -/
def pyIter : Json → Except PyExn (List Json)
  | Json.arr xs => Except.ok xs
  | Json.obj kvs => Except.ok (kvs.map (fun kv => Json.str kv.1))
  | Json.str s => Except.ok (s.data.map (fun c => Json.str (String.singleton c)))
  | _ => Except.error PyExn.typeError

/-- Python `v == s` between a decoded JSON value and a parameter string:
true exactly when `v` is the same string; comparing a non-string to a string
is `False`, never an error. -/
def Json.eqStr : Json → String → Bool
  | Json.str t, s => t == s
  | _, _ => false

/-- HTTP verbs used by the two modules. -/
inductive Verb where
  | get : Verb
  | post : Verb
  | put : Verb
  | delete : Verb
deriving Repr, DecidableEq

/-- One HTTP request as issued through `requests.<verb>(url, json=body, headers=...)`. -/
structure HttpRequest where
  verb : Verb
  url : String
  headers : List (String × String)
  body : Option Json

/-- One HTTP response: status code and parsed JSON body. -/
structure HttpResponse where
  status : Nat
  body : Json

/-- The `(is_error, has_changed, result)` triple every reconcile function
returns to `main`. -/
structure Outcome where
  errored : Bool
  changed : Bool
  payload : Json

/-- The error payload `{"status": result.status_code, 'response': result.json()['message']}`. -/
def statusPayload (status : Nat) (msg : Json) : Json :=
  Json.obj [("status", Json.num status), ("response", msg)]

/-- Parameters of the `alert_contact_point` module. -/
structure CPParams where
  name : String
  uid : String
  type : String
  settings : Json
  disableResolveMessage : Bool
  stack_slug : String
  grafana_api_key : String

/-- Parameters of the `cloud_api_key` module. -/
structure CKParams where
  name : String
  role : String
  org_slug : String
  existing_cloud_api_key : String
  fail_if_already_created : Bool
deriving Repr, DecidableEq

/-- `{"Authorization": 'Bearer ' + key}`. -/
def authHeaders (key : String) : List (String × String) :=
  [("Authorization", "Bearer " ++ key)]

/-- `'https://' + stack_slug + '.grafana.net/api/v1/provisioning/contact-points'`. -/
def cpListUrl (p : CPParams) : String :=
  "https://" ++ p.stack_slug ++ ".grafana.net/api/v1/provisioning/contact-points"

/-- The request body built once at the top of `present_alert_contact_point`. -/
def cpBody (p : CPParams) : Json :=
  Json.obj [("Name", Json.str p.name), ("UID", Json.str p.uid),
            ("type", Json.str p.type), ("settings", p.settings),
            ("DisableResolveMessage", Json.bool p.disableResolveMessage)]

/-- The create request: `requests.post(list-url, json=body, headers=auth)`. -/
def cpPostReq (p : CPParams) : HttpRequest :=
  { verb := Verb.post, url := cpListUrl p,
    headers := authHeaders p.grafana_api_key, body := some (cpBody p) }

/-- The fallback update request: `requests.put(list-url + '/' + uid, json=body, headers=auth)`. -/
def cpPutReq (p : CPParams) : HttpRequest :=
  { verb := Verb.put, url := cpListUrl p ++ "/" ++ p.uid,
    headers := authHeaders p.grafana_api_key, body := some (cpBody p) }

/-- The listing request: `requests.get(list-url, headers=auth)`. -/
def cpGetReq (p : CPParams) : HttpRequest :=
  { verb := Verb.get, url := cpListUrl p,
    headers := authHeaders p.grafana_api_key, body := none }

/-- The delete request: `requests.delete(list-url + '/' + uid, headers=auth)`. -/
def cpDeleteReq (p : CPParams) : HttpRequest :=
  { verb := Verb.delete, url := cpListUrl p ++ "/" ++ p.uid,
    headers := authHeaders p.grafana_api_key, body := none }

/-- The `for contact_points in result.json(): if contact_points['uid'] == uid: found = True`
loop shared by both contact-point paths.  Returns the `found` flag together
with the final value of the loop variable (`none` when the loop never ran);
subscripting an element without a `uid` key, or a non-dict element, raises. -/
def cpScan (elems : List Json) (uid : String) : Except PyExn (Bool × Option Json) :=
  elems.foldlM
    (fun acc e => do
      let v ← pySubscript e "uid"
      pure (acc.1 || v.eqStr uid, some e))
    (false, (none : Option Json))

/-- `present_alert_contact_point(module)`: optimistic create, fallback update
on 500, re-list and scan on accepted update.  Returns the issued requests and
the outcome (or the uncaught exception). -/
def present_alert_contact_point (p : CPParams) (resp : Nat → HttpResponse) :
    List HttpRequest × Except PyExn Outcome :=
  let r0 := resp 0
  if r0.status = 202 then
    ([cpPostReq p], Except.ok ⟨false, true, r0.body⟩)
  else if r0.status = 500 then
    let r1 := resp 1
    if r1.status = 202 then
      let r2 := resp 2
      ([cpPostReq p, cpPutReq p, cpGetReq p],
        match pyIter r2.body with
        | Except.error e => Except.error e
        | Except.ok elems =>
          match cpScan elems p.uid with
          | Except.error e => Except.error e
          | Except.ok (found, last) =>
            if found then
              match last with
              | some cp => Except.ok ⟨false, true, cp⟩
              | none => Except.error PyExn.nameError
            else
              Except.ok ⟨true, false, Json.str "Contact Point not found"⟩)
    else
      ([cpPostReq p, cpPutReq p],
        match pySubscript r1.body "message" with
        | Except.error e => Except.error e
        | Except.ok msg => Except.ok ⟨true, false, statusPayload r1.status msg⟩)
  else
    ([cpPostReq p],
      match pySubscript r0.body "message" with
      | Except.error e => Except.error e
      | Except.ok msg => Except.ok ⟨true, false, statusPayload r0.status msg⟩)

/-- `absent_alert_contact_point(module)`: list, scan for the uid, delete only
when found. -/
def absent_alert_contact_point (p : CPParams) (resp : Nat → HttpResponse) :
    List HttpRequest × Except PyExn Outcome :=
  let r0 := resp 0
  match pyIter r0.body with
  | Except.error e => ([cpGetReq p], Except.error e)
  | Except.ok elems =>
    match cpScan elems p.uid with
    | Except.error e => ([cpGetReq p], Except.error e)
    | Except.ok (already_exists, _) =>
      if already_exists then
        let r1 := resp 1
        if r1.status = 202 then
          ([cpGetReq p, cpDeleteReq p], Except.ok ⟨false, true, r1.body⟩)
        else
          ([cpGetReq p, cpDeleteReq p],
            match pySubscript r1.body "message" with
            | Except.error e => Except.error e
            | Except.ok msg => Except.ok ⟨true, false, statusPayload r1.status msg⟩)
      else
        ([cpGetReq p],
          Except.ok ⟨true, false, Json.str "Alert Contact point does not exist"⟩)

/-- `'https://grafana.com/api/orgs/' + org_slug + '/api-keys'`. -/
def ckListUrl (p : CKParams) : String :=
  "https://grafana.com/api/orgs/" ++ p.org_slug ++ "/api-keys"

/-- The body `{'name': name, 'role': role}`. -/
def ckBody (p : CKParams) : Json :=
  Json.obj [("name", Json.str p.name), ("role", Json.str p.role)]

/-- The create request for a cloud API key. -/
def ckPostReq (p : CKParams) : HttpRequest :=
  { verb := Verb.post, url := ckListUrl p,
    headers := authHeaders p.existing_cloud_api_key, body := some (ckBody p) }

/-- The delete request for a cloud API key, addressed by name. -/
def ckDeleteReq (p : CKParams) : HttpRequest :=
  { verb := Verb.delete, url := ckListUrl p ++ "/" ++ p.name,
    headers := authHeaders p.existing_cloud_api_key, body := none }

/-- `present_cloud_api_key(module)`. -/
def present_cloud_api_key (p : CKParams) (resp : Nat → HttpResponse) :
    List HttpRequest × Except PyExn Outcome :=
  let r0 := resp 0
  if r0.status = 200 then
    ([ckPostReq p], Except.ok ⟨false, true, r0.body⟩)
  else if r0.status = 409 then
    ([ckPostReq p],
      Except.ok ⟨p.fail_if_already_created, false,
        Json.str "A Cloud API key with the same name already exists"⟩)
  else
    ([ckPostReq p],
      match pySubscript r0.body "message" with
      | Except.error e => Except.error e
      | Except.ok msg => Except.ok ⟨true, false, statusPayload r0.status msg⟩)

/-- `absent_cloud_api_key(module)`: unconditional delete by name. -/
def absent_cloud_api_key (p : CKParams) (resp : Nat → HttpResponse) :
    List HttpRequest × Except PyExn Outcome :=
  let r0 := resp 0
  if r0.status = 200 then
    ([ckDeleteReq p], Except.ok ⟨false, true, Json.str "Cloud API key is deleted"⟩)
  else
    ([ckDeleteReq p],
      match pySubscript r0.body "message" with
      | Except.error e => Except.error e
      | Except.ok msg => Except.ok ⟨true, false, statusPayload r0.status msg⟩)

/-- One of the four reconcile operations, as dispatched by each module's
`choice_map` on the `state` parameter. -/
inductive ReconcileOp where
  | cpPresent : CPParams → ReconcileOp
  | cpAbsent : CPParams → ReconcileOp
  | ckPresent : CKParams → ReconcileOp
  | ckAbsent : CKParams → ReconcileOp

/-- Run the selected reconcile operation against a response oracle. -/
def runReconcile : ReconcileOp → (Nat → HttpResponse) → List HttpRequest × Except PyExn Outcome
  | ReconcileOp.cpPresent p, resp => present_alert_contact_point p resp
  | ReconcileOp.cpAbsent p, resp => absent_alert_contact_point p resp
  | ReconcileOp.ckPresent p, resp => present_cloud_api_key p resp
  | ReconcileOp.ckAbsent p, resp => absent_cloud_api_key p resp

/-- Does a listing element match the spec's uid?  (`e['uid'] == uid`, with a
failed subscript counted as no match; used only to state which listing entries
match.) -/
def uidMatches (uid : String) (e : Json) : Bool :=
  match pySubscript e "uid" with
  | Except.ok v => v.eqStr uid
  | Except.error _ => false

/-- Example parameters for the `alert_contact_point` module. -/
def pEx : CPParams :=
  ⟨"ops-email", "opsemail", "email", Json.obj [("addresses", Json.str "ops@x.com")],
   false, "teststack", "key123"⟩

/-- Example parameters for the `cloud_api_key` module. -/
def kEx : CKParams :=
  ⟨"key1", "Admin", "org1", "tok0", true⟩

/-- Server accepts the create immediately. -/
def respCreated : Nat → HttpResponse := fun _ =>
  ⟨202, Json.obj [("uid", Json.str "opsemail")]⟩

/-- Server rejects the create with a status that is neither 202 nor 500. -/
def respBadCreate : Nat → HttpResponse := fun _ =>
  ⟨400, Json.obj [("message", Json.str "bad request")]⟩

/-- Create fails with 500, then the fallback update is rejected. -/
def respPutRejected : Nat → HttpResponse := fun n =>
  if n = 0 then ⟨500, Json.null⟩
  else ⟨412, Json.obj [("message", Json.str "precondition failed")]⟩

/-- Create fails with 500, the update is accepted, but the re-fetched listing
is empty. -/
def respPutOkVanished : Nat → HttpResponse := fun n =>
  if n = 0 then ⟨500, Json.null⟩
  else if n = 1 then ⟨202, Json.null⟩
  else ⟨200, Json.arr []⟩

/-- A listing holding exactly the example contact point. -/
def exListing : Json :=
  Json.arr [Json.obj [("uid", Json.str "opsemail")]]

/-- Listing without the target uid. -/
def respAbsentMissing : Nat → HttpResponse := fun _ =>
  ⟨200, Json.arr []⟩

/-- Listing holds the target; the delete is accepted. -/
def respAbsentFound : Nat → HttpResponse := fun n =>
  if n = 0 then ⟨200, exListing⟩ else ⟨202, Json.null⟩

/-- Listing holds the target; the delete is rejected. -/
def respAbsentDelFail : Nat → HttpResponse := fun n =>
  if n = 0 then ⟨200, exListing⟩
  else ⟨404, Json.obj [("message", Json.str "not found")]⟩

/-- Cloud API key create accepted. -/
def respKeyOk : Nat → HttpResponse := fun _ =>
  ⟨200, Json.obj [("token", Json.str "tokval")]⟩

/-- Cloud API key create conflicts (name already in use). -/
def respKeyConflict : Nat → HttpResponse := fun _ =>
  ⟨409, Json.null⟩

/-- Cloud API key request rejected with another status. -/
def respKeyFail : Nat → HttpResponse := fun _ =>
  ⟨403, Json.obj [("message", Json.str "forbidden")]⟩

/-- Parameters exercising the leaked loop variable in the present path:
the spec's uid is `"a"`. -/
def c2Params : CPParams :=
  ⟨"n", "a", "email", Json.obj [], false, "s", "k"⟩

/-- Create fails with 500, update accepted, and the re-fetched listing holds a
matching entry first and a non-matching entry last. -/
def c2Resp : Nat → HttpResponse := fun n =>
  if n = 0 then ⟨500, Json.null⟩
  else if n = 1 then ⟨202, Json.null⟩
  else ⟨200, Json.arr [Json.obj [("uid", Json.str "a")], Json.obj [("uid", Json.str "b")]]⟩

/-- C1: for every parameter set and every sequence of HTTP responses, the
outcome triple returned by any of the four reconcile operations never has
`errored = true` and `changed = true` simultaneously. -/
theorem c1_errored_changed_never_both (op : ReconcileOp) (resp : Nat → HttpResponse)
    (tr : List HttpRequest) (o : Outcome)
    (h : runReconcile op resp = (tr, Except.ok o)) :
    ¬(o.errored = true ∧ o.changed = true) := by
  rcases op with p | p | p | p <;>
    simp only [runReconcile, present_alert_contact_point, absent_alert_contact_point,
      present_cloud_api_key, absent_cloud_api_key] at h <;>
    repeat' split at h
  all_goals simp_all [Prod.ext_iff]
  all_goals (rcases h with ⟨h1, h2⟩; subst h2; simp)

/-- C1 witness: the invariant instantiated on a concrete successful create. -/
theorem c1_errored_changed_never_both_witness :
    ¬((Outcome.mk false true (respCreated 0).body).errored = true
      ∧ (Outcome.mk false true (respCreated 0).body).changed = true) :=
  c1_errored_changed_never_both (ReconcileOp.cpPresent pEx) respCreated
    [cpPostReq pEx] ⟨false, true, (respCreated 0).body⟩ rfl

/-- C2: at a concrete input where the re-fetched listing holds the matching
entry `{"uid": "a"}` first and the non-matching entry `{"uid": "b"}` last, the
present path returns `changed = true` with payload `{"uid": "b"}` — the final
element the leaked loop variable holds — although the last (indeed only)
entry whose uid matches the spec's uid is `{"uid": "a"}`. -/
theorem c2_payload_is_last_listing_element :
    (present_alert_contact_point c2Params c2Resp).2
      = Except.ok ⟨false, true, Json.obj [("uid", Json.str "b")]⟩
    ∧ (c2Resp 2).body
      = Json.arr [Json.obj [("uid", Json.str "a")], Json.obj [("uid", Json.str "b")]]
    ∧ ([Json.obj [("uid", Json.str "a")], Json.obj [("uid", Json.str "b")]].filter
        (uidMatches c2Params.uid)).getLast?
      = some (Json.obj [("uid", Json.str "a")])
    ∧ Json.obj [("uid", Json.str "b")] ≠ Json.obj [("uid", Json.str "a")] := by
  refine ⟨rfl, rfl, rfl, ?_⟩
  simp

/-- C3: with the create answered 500, a PUT addressed by uid is sent; a
rejected update yields `errored = true` with the update's status and server
message, and an accepted update followed by a listing without the uid yields
`errored = true` with payload `"Contact Point not found"`. -/
theorem c3_update_failure_paths (p : CPParams) (rA rB : Nat → HttpResponse) (m : Json)
    (xs : List Json) (l : Option Json) :
    ((rA 0).status = 500 → (rA 1).status ≠ 202 →
      pySubscript (rA 1).body "message" = Except.ok m →
      present_alert_contact_point p rA
        = ([cpPostReq p, cpPutReq p],
           Except.ok ⟨true, false, statusPayload (rA 1).status m⟩))
    ∧ ((rB 0).status = 500 → (rB 1).status = 202 →
      pyIter (rB 2).body = Except.ok xs →
      cpScan xs p.uid = Except.ok (false, l) →
      present_alert_contact_point p rB
        = ([cpPostReq p, cpPutReq p, cpGetReq p],
           Except.ok ⟨true, false, Json.str "Contact Point not found"⟩))
    ∧ (cpPutReq p).verb = Verb.put
    ∧ (cpPutReq p).url = cpListUrl p ++ "/" ++ p.uid := by
  refine ⟨?_, ?_, rfl, rfl⟩
  · intro h1 h2 h3
    simp [present_alert_contact_point, h1, h2, h3]
  · intro h1 h2 h3 h4
    simp [present_alert_contact_point, h1, h2, h3, h4]

/-- C3 witness: both failure paths at concrete inputs. -/
theorem c3_update_failure_paths_witness :
    present_alert_contact_point pEx respPutRejected
      = ([cpPostReq pEx, cpPutReq pEx],
         Except.ok ⟨true, false,
           statusPayload (respPutRejected 1).status (Json.str "precondition failed")⟩)
    ∧ present_alert_contact_point pEx respPutOkVanished
      = ([cpPostReq pEx, cpPutReq pEx, cpGetReq pEx],
         Except.ok ⟨true, false, Json.str "Contact Point not found"⟩) := by
  have h := c3_update_failure_paths pEx respPutRejected respPutOkVanished
    (Json.str "precondition failed") [] none
  exact ⟨h.1 rfl (by decide) rfl, h.2.1 rfl rfl rfl rfl⟩

/-- C4: a create answered 202 yields `changed = true` with the response body
as payload and a single request issued; a create answered with a status other
than 202 and 500 yields `errored = true` with that status and the server
message, again with a single request issued. -/
theorem c4_create_paths (p : CPParams) (rA rB : Nat → HttpResponse) (m : Json) :
    ((rA 0).status = 202 →
      present_alert_contact_point p rA
        = ([cpPostReq p], Except.ok ⟨false, true, (rA 0).body⟩))
    ∧ ((rB 0).status ≠ 202 → (rB 0).status ≠ 500 →
      pySubscript (rB 0).body "message" = Except.ok m →
      present_alert_contact_point p rB
        = ([cpPostReq p], Except.ok ⟨true, false, statusPayload (rB 0).status m⟩)) := by
  constructor
  · intro h
    simp [present_alert_contact_point, h]
  · intro h1 h2 h3
    simp [present_alert_contact_point, h1, h2, h3]

/-- C4 witness: accepted create and rejected create at concrete inputs. -/
theorem c4_create_paths_witness :
    present_alert_contact_point pEx respCreated
      = ([cpPostReq pEx], Except.ok ⟨false, true, (respCreated 0).body⟩)
    ∧ present_alert_contact_point pEx respBadCreate
      = ([cpPostReq pEx],
         Except.ok ⟨true, false,
           statusPayload (respBadCreate 0).status (Json.str "bad request")⟩) := by
  have h := c4_create_paths pEx respCreated respBadCreate (Json.str "bad request")
  exact ⟨h.1 rfl, h.2 (by decide) (by decide) rfl⟩

/-- C5: with `state = absent` the contact-point reconciler lists first; when
no entry matches the uid it errors with the does-not-exist message and issues
no delete; when some entry matches it issues the delete addressed by uid and
returns `changed = true` on 202, else `errored = true` with status and
message. -/
theorem c5_absent_contact_point_paths (p : CPParams) (rA rB rC : Nat → HttpResponse)
    (xsA xsB xsC : List Json) (lA lB lC : Option Json) (m : Json) :
    (pyIter (rA 0).body = Except.ok xsA →
      cpScan xsA p.uid = Except.ok (false, lA) →
      absent_alert_contact_point p rA
        = ([cpGetReq p],
           Except.ok ⟨true, false, Json.str "Alert Contact point does not exist"⟩))
    ∧ (pyIter (rB 0).body = Except.ok xsB →
      cpScan xsB p.uid = Except.ok (true, lB) → (rB 1).status = 202 →
      absent_alert_contact_point p rB
        = ([cpGetReq p, cpDeleteReq p], Except.ok ⟨false, true, (rB 1).body⟩))
    ∧ (pyIter (rC 0).body = Except.ok xsC →
      cpScan xsC p.uid = Except.ok (true, lC) → (rC 1).status ≠ 202 →
      pySubscript (rC 1).body "message" = Except.ok m →
      absent_alert_contact_point p rC
        = ([cpGetReq p, cpDeleteReq p],
           Except.ok ⟨true, false, statusPayload (rC 1).status m⟩))
    ∧ (cpGetReq p).verb = Verb.get
    ∧ (cpDeleteReq p).verb = Verb.delete
    ∧ (cpDeleteReq p).url = cpListUrl p ++ "/" ++ p.uid := by
  refine ⟨?_, ?_, ?_, rfl, rfl, rfl⟩
  · intro h1 h2
    simp [absent_alert_contact_point, h1, h2]
  · intro h1 h2 h3
    simp [absent_alert_contact_point, h1, h2, h3]
  · intro h1 h2 h3 h4
    simp [absent_alert_contact_point, h1, h2, h3, h4]

/-- C5 witness: the three absent paths at concrete inputs. -/
theorem c5_absent_contact_point_paths_witness :
    absent_alert_contact_point pEx respAbsentMissing
      = ([cpGetReq pEx],
         Except.ok ⟨true, false, Json.str "Alert Contact point does not exist"⟩)
    ∧ absent_alert_contact_point pEx respAbsentFound
      = ([cpGetReq pEx, cpDeleteReq pEx],
         Except.ok ⟨false, true, (respAbsentFound 1).body⟩)
    ∧ absent_alert_contact_point pEx respAbsentDelFail
      = ([cpGetReq pEx, cpDeleteReq pEx],
         Except.ok ⟨true, false,
           statusPayload (respAbsentDelFail 1).status (Json.str "not found")⟩) := by
  have h := c5_absent_contact_point_paths pEx
    respAbsentMissing respAbsentFound respAbsentDelFail
    [] [Json.obj [("uid", Json.str "opsemail")]] [Json.obj [("uid", Json.str "opsemail")]]
    none (some (Json.obj [("uid", Json.str "opsemail")]))
    (some (Json.obj [("uid", Json.str "opsemail")])) (Json.str "not found")
  exact ⟨h.1 rfl rfl, h.2.1 rfl rfl rfl, h.2.2.1 rfl rfl (by decide) rfl⟩

/-- C6: cloud API key create returns `changed = true` with the server
response on 200; on 409 it returns `changed = false` with
`errored = fail_if_already_created`; any other status yields `errored = true`
with status and server message. -/
theorem c6_present_cloud_api_key_paths (p : CKParams) (rA rB rC : Nat → HttpResponse)
    (m : Json) :
    ((rA 0).status = 200 →
      present_cloud_api_key p rA
        = ([ckPostReq p], Except.ok ⟨false, true, (rA 0).body⟩))
    ∧ ((rB 0).status = 409 →
      present_cloud_api_key p rB
        = ([ckPostReq p],
           Except.ok ⟨p.fail_if_already_created, false,
             Json.str "A Cloud API key with the same name already exists"⟩))
    ∧ ((rC 0).status ≠ 200 → (rC 0).status ≠ 409 →
      pySubscript (rC 0).body "message" = Except.ok m →
      present_cloud_api_key p rC
        = ([ckPostReq p], Except.ok ⟨true, false, statusPayload (rC 0).status m⟩)) := by
  refine ⟨?_, ?_, ?_⟩
  · intro h
    simp [present_cloud_api_key, h]
  · intro h
    simp [present_cloud_api_key, h]
  · intro h1 h2 h3
    simp [present_cloud_api_key, h1, h2, h3]

/-- C6 witness: the three cloud-key create paths at concrete inputs. -/
theorem c6_present_cloud_api_key_paths_witness :
    present_cloud_api_key kEx respKeyOk
      = ([ckPostReq kEx], Except.ok ⟨false, true, (respKeyOk 0).body⟩)
    ∧ present_cloud_api_key kEx respKeyConflict
      = ([ckPostReq kEx],
         Except.ok ⟨kEx.fail_if_already_created, false,
           Json.str "A Cloud API key with the same name already exists"⟩)
    ∧ present_cloud_api_key kEx respKeyFail
      = ([ckPostReq kEx],
         Except.ok ⟨true, false,
           statusPayload (respKeyFail 0).status (Json.str "forbidden")⟩) := by
  have h := c6_present_cloud_api_key_paths kEx respKeyOk respKeyConflict respKeyFail
    (Json.str "forbidden")
  exact ⟨h.1 rfl, h.2.1 rfl, h.2.2 (by decide) (by decide) rfl⟩

/-- C7: `absent_cloud_api_key` always issues exactly one request — a DELETE
addressed by the key's name, with no preceding GET — and returns
`changed = true` on 200 and `errored = true` with status and message on any
other status. -/
theorem c7_absent_cloud_api_key_single_delete (p : CKParams)
    (r rA rB : Nat → HttpResponse) (m : Json) :
    (absent_cloud_api_key p r).1 = [ckDeleteReq p]
    ∧ (ckDeleteReq p).verb = Verb.delete
    ∧ (ckDeleteReq p).url
      = "https://grafana.com/api/orgs/" ++ p.org_slug ++ "/api-keys/" ++ p.name
    ∧ ((rA 0).status = 200 →
      (absent_cloud_api_key p rA).2
        = Except.ok ⟨false, true, Json.str "Cloud API key is deleted"⟩)
    ∧ ((rB 0).status ≠ 200 →
      pySubscript (rB 0).body "message" = Except.ok m →
      (absent_cloud_api_key p rB).2
        = Except.ok ⟨true, false, statusPayload (rB 0).status m⟩) := by
  refine ⟨?_, rfl, ?_, ?_, ?_⟩
  · simp only [absent_cloud_api_key]
    split <;> rfl
  · simp [ckDeleteReq, ckListUrl, String.append_assoc]
  · intro h
    simp [absent_cloud_api_key, h]
  · intro h1 h2
    simp [absent_cloud_api_key, h1, h2]

/-- C7 witness: accepted and rejected delete at concrete inputs. -/
theorem c7_absent_cloud_api_key_single_delete_witness :
    (absent_cloud_api_key kEx respKeyOk).1 = [ckDeleteReq kEx]
    ∧ (absent_cloud_api_key kEx respKeyOk).2
      = Except.ok ⟨false, true, Json.str "Cloud API key is deleted"⟩
    ∧ (absent_cloud_api_key kEx respKeyFail).2
      = Except.ok ⟨true, false,
          statusPayload (respKeyFail 0).status (Json.str "forbidden")⟩ := by
  have h := c7_absent_cloud_api_key_single_delete kEx respKeyOk respKeyOk respKeyFail
    (Json.str "forbidden")
  exact ⟨h.1, h.2.2.2.1 rfl, h.2.2.2.2 (by decide) rfl⟩

/-- C8: any single reconciliation issues at most three HTTP requests, and it
issues exactly three precisely on the contact-point present path whose create
is answered 500 and whose update is answered 202 — in which case the verbs
are POST, PUT, GET; every other path issues at most two. -/
theorem c8_request_count_bound (op : ReconcileOp) (resp : Nat → HttpResponse) :
    (runReconcile op resp).1.length ≤ 3
    ∧ ((runReconcile op resp).1.length = 3 ↔
        (∃ p, op = ReconcileOp.cpPresent p)
          ∧ (resp 0).status = 500 ∧ (resp 1).status = 202
          ∧ (runReconcile op resp).1.map HttpRequest.verb
            = [Verb.post, Verb.put, Verb.get]) := by
  rcases op with p | p | p | p <;>
    simp only [runReconcile, present_alert_contact_point, absent_alert_contact_point,
      present_cloud_api_key, absent_cloud_api_key] <;>
    repeat' split
  all_goals simp_all [cpPostReq, cpPutReq, cpGetReq]

/-- C9: when the create is answered 500, the first two requests are the POST
and the PUT, the PUT's JSON body is the POST's JSON body, and that body is the
mapping with keys Name, UID, type, settings, DisableResolveMessage built from
the parameters. -/
theorem c9_put_body_equals_post_body (p : CPParams) (resp : Nat → HttpResponse)
    (h : (resp 0).status = 500) :
    (present_alert_contact_point p resp).1.take 2 = [cpPostReq p, cpPutReq p]
    ∧ (cpPostReq p).verb = Verb.post ∧ (cpPutReq p).verb = Verb.put
    ∧ (cpPostReq p).body = some (cpBody p)
    ∧ (cpPutReq p).body = (cpPostReq p).body
    ∧ cpBody p = Json.obj [("Name", Json.str p.name), ("UID", Json.str p.uid),
        ("type", Json.str p.type), ("settings", p.settings),
        ("DisableResolveMessage", Json.bool p.disableResolveMessage)] := by
  refine ⟨?_, rfl, rfl, rfl, rfl, rfl⟩
  simp only [present_alert_contact_point, h]
  norm_num
  split <;> rfl

/-- C9 witness: the shared body at a concrete 500-answered create. -/
theorem c9_put_body_equals_post_body_witness :
    (present_alert_contact_point pEx respPutRejected).1.take 2
      = [cpPostReq pEx, cpPutReq pEx]
    ∧ (cpPutReq pEx).body = (cpPostReq pEx).body := by
  have h := c9_put_body_equals_post_body pEx respPutRejected rfl
  exact ⟨h.1, h.2.2.2.2.1⟩

/-- C10: each reconcile operation is deterministic — two runs with equal
parameters and pointwise-equal response sequences issue the same requests and
return the same outcome. -/
theorem c10_deterministic (op op2 : ReconcileOp) (r r2 : Nat → HttpResponse)
    (hop : op = op2) (hr : ∀ n, r n = r2 n) :
    runReconcile op r = runReconcile op2 r2 := by
  subst hop
  have hfun : r = r2 := funext hr
  subst hfun
  rfl

/-- C10 witness: determinism instantiated on a concrete operation and oracle. -/
theorem c10_deterministic_witness :
    runReconcile (ReconcileOp.ckAbsent kEx) respKeyOk
      = runReconcile (ReconcileOp.ckAbsent kEx) respKeyOk :=
  c10_deterministic (ReconcileOp.ckAbsent kEx) (ReconcileOp.ckAbsent kEx)
    respKeyOk respKeyOk rfl (fun _ => rfl)
